import Mathlib

/-!
# Verification development for the `xmltrace` XML endpoint tester

Shallow embedding of the test execution engine: the variable substitution
engine (`test_runner.py::_substitute_variables`), the structural query
validator (`xml_parser.py::validate_xpath_like`), the content regex
validator (`xml_parser.py::validate_content_regex`), the request dispatcher
outcome normalization (`http_client.py::send_request`), the per-case test
executor and run orchestrator (`test_runner.py::run_tests`), and the
statistics collector (`stats_collector.py::record_test_result`).

External collaborators (the `requests` transport, the BeautifulSoup XML
parser and its CSS selector engine, Python's `re` module applied to the
pretty-printed document) are modelled as oracle parameters, matching the
spec's interface-only treatment of those boundaries.  Everything that is
code of this repository is translated directly from the source.
-/

namespace XmlTrace

/-- Python values as they occur in the test-case configuration: strings,
integers, and `None`.  Used for template fields and parameter values so
that "non-string inputs pass through unchanged" and "stringified" are
meaningful. -/
inductive PyVal where
  | vstr (s : String)
  | vint (n : Int)
  | vnone
deriving DecidableEq, Repr

/-- Python `str()` on the modelled values. -/
def pyStr : PyVal → String
  | .vstr s => s
  | .vint n => toString n
  | .vnone => "None"

/-- A Python dict of parameters, modelled as an insertion-ordered
association list (keys unique in any dict produced by the code). -/
def Params := List (String × PyVal)
deriving DecidableEq, Repr

/-- Dict lookup: `d.get(k)` / `d[k]` (first matching key). -/
def alookup (ps : Params) (k : String) : Option PyVal :=
  (List.find? (fun p => p.1 == k) ps).map (·.2)

/-- Python `base.update(upd)`: existing keys keep their position but take
the updated value; new keys are appended in `upd` order. -/
def dictUpdate (base upd : Params) : Params :=
  (List.map (fun kv => (kv.1, (alookup upd kv.1).getD kv.2)) base)
    ++ List.filter (fun kv => (alookup base kv.1).isNone) upd

/-! ## Variable Substitution Engine — `TestRunner._substitute_variables`

The source applies `re.sub(r'\x7b(\w+)\x7d', replace_match, text)` where
`replace_match` returns `str(variables.get(key, match.group(0)))`.  For the
pattern `\x7b(\w+)\x7d` a match starts at a position exactly when that
position holds `{`, followed by a non-empty maximal run of word characters,
followed by `}` (the required closing brace forbids any shorter backtracked
run, since the character after a shorter run is a word character).  `re.sub`
scans left to right over non-overlapping matches; `scanSub` is that scan. -/

/-- `\w` of Python's `re` restricted to the ASCII fragment exercised by the
configuration files: letters, digits, underscore. -/
def wordChar (c : Char) : Bool := c.isAlphanum || c == '_'

/-- The left-to-right substitution scan of
`re.sub(r'\x7b(\w+)\x7d', replace_match, text)`. -/
def scanSub (ps : Params) : List Char → List Char
  | [] => []
  | c :: rest =>
    if c = '{' then
      let run := rest.takeWhile wordChar
      if run.isEmpty then c :: scanSub ps rest
      else
        match h : rest.dropWhile wordChar with
        | '}' :: tail =>
          (match alookup ps (String.mk run) with
           | some v => (pyStr v).data
           | none => '{' :: (run ++ ['}'])) ++ scanSub ps tail
        | _ => c :: scanSub ps rest
    else c :: scanSub ps rest
termination_by l => l.length
decreasing_by
  all_goals first
    | (simp only [List.length_cons]; omega)
    | (simp only [List.length_cons]
       have h1 : (rest.dropWhile wordChar).length ≤ rest.length :=
         (List.dropWhile_suffix wordChar).length_le
       rw [h] at h1
       simp only [List.length_cons] at h1
       omega)

/-- `_substitute_variables`: strings get the placeholder scan, any
non-string input is returned unchanged. -/
def substitute_variables (ps : Params) (v : PyVal) : PyVal :=
  match v with
  | .vstr s => .vstr (String.mk (scanSub ps s.data))
  | other => other

/-! Specification-side description of the substitution contract, used to
check `substitute_variables` against the spec's words: tokenize the
template into literal characters and `\x7bidentifier\x7d` placeholders in a
single left-to-right scan, then render each placeholder to the stringified
mapped value when the identifier is present and to the verbatim placeholder
text when it is absent. -/

/-- One token of a template: a literal character or a placeholder key. -/
inductive SubTok where
  | lit (c : Char)
  | ph (key : String)
deriving DecidableEq, Repr

/-- Tokenization of a template into literals and placeholders
(parameter-independent). -/
def tokenizeSub : List Char → List SubTok
  | [] => []
  | c :: rest =>
    if c = '{' then
      let run := rest.takeWhile wordChar
      if run.isEmpty then .lit c :: tokenizeSub rest
      else
        match h : rest.dropWhile wordChar with
        | '}' :: tail => .ph (String.mk run) :: tokenizeSub tail
        | _ => .lit c :: tokenizeSub rest
    else .lit c :: tokenizeSub rest
termination_by l => l.length
decreasing_by
  all_goals first
    | (simp only [List.length_cons]; omega)
    | (simp only [List.length_cons]
       have h1 : (rest.dropWhile wordChar).length ≤ rest.length :=
         (List.dropWhile_suffix wordChar).length_le
       rw [h] at h1
       simp only [List.length_cons] at h1
       omega)

/-- Rendering of one token against the parameter mapping: present keys map
to the stringified value, absent keys stay verbatim including braces. -/
def renderTok (ps : Params) : SubTok → List Char
  | .lit c => [c]
  | .ph key =>
    match alookup ps key with
    | some v => (pyStr v).data
    | none => '{' :: (key.data ++ ['}'])

/-- The substitution contract as the spec states it: tokenize, render each
token, concatenate. -/
def substituteSpec (ps : Params) (v : PyVal) : PyVal :=
  match v with
  | .vstr s => .vstr (String.mk (((tokenizeSub s.data).map (renderTok ps)).flatten))
  | other => other

/-! ## Parsed document trees and the Structural Query Validator —
`xml_parser.py::XMLParser.validate_xpath_like`

A parsed document is a tree of elements (tag, attribute mapping, children).
Text nodes carry no information used by the validator and are omitted.
`BeautifulSoup.find_all(tag, {attr: value})` searches every element of the
tree, the root included, for an exact tag-name and attribute-value match.
The CSS-selector engine (`soup.select`, the external `soupsieve` library)
is an oracle parameter returning the number of matches, or `none` when the
selector raises. -/

/-- An element of a parsed XML document. -/
inductive XNode where
  | elem (tag : String) (attrs : List (String × String)) (children : List XNode)

/-- Tag name of an element. -/
def nodeTag : XNode → String
  | .elem t _ _ => t

/-- Attribute mapping of an element. -/
def nodeAttrs : XNode → List (String × String)
  | .elem _ a _ => a

/-- Attribute lookup, `tag.get(attr)`. -/
def attrLookup (attrs : List (String × String)) (k : String) : Option String :=
  (List.find? (fun p => p.1 == k) attrs).map (·.2)

mutual
/-- Every element of the tree, the root included, in document order. -/
def XNode.allNodes : XNode → List XNode
  | .elem t a cs => XNode.elem t a cs :: allNodesList cs

/-- `allNodes` over a forest. -/
def allNodesList : List XNode → List XNode
  | [] => []
  | n :: ns => n.allNodes ++ allNodesList ns
end

/-- `soup.find_all(tag, {attr: value})` is non-empty: some element named
`tag` anywhere in the tree carries attribute `attr` with exact value
`val`. -/
def existsTagAttr (root : XNode) (tag attr val : String) : Bool :=
  root.allNodes.any (fun n => nodeTag n == tag && attrLookup (nodeAttrs n) attr == some val)

/-- `soup.find(tag) is not None`: some element named `tag` exists. -/
def existsTag (root : XNode) (tag : String) : Bool :=
  root.allNodes.any (fun n => nodeTag n == tag)

/-- Python `c in s` for a character. -/
def hasChar (l : List Char) (c : Char) : Bool := l.any (· == c)

/-- Python `s.split(sep, 1)` when `sep` occurs: the part before the first
occurrence and the part after it; `none` when `sep` is absent (where the
source would raise `ValueError` on unpacking, or `split('=', 1)` yields a
single piece). -/
def splitFirst : List Char → Char → Option (List Char × List Char)
  | [], _ => none
  | c :: rest, t =>
    if c = t then some ([], rest)
    else
      match splitFirst rest t with
      | some (a, b) => some (c :: a, b)
      | none => none

/-- A single or double quote character, the strip set of
`attr_value.strip("'\"")`. -/
def isQuote (c : Char) : Bool := c == '\'' || c == '"'

/-- Python `s.strip("'\"")`: remove every leading and trailing quote
character. -/
def stripQuotes (l : List Char) : List Char :=
  (((l.dropWhile isQuote).reverse.dropWhile isQuote).reverse)

/-- Step 1 of `validate_xpath_like`: the attribute-filter branch.  Entered
when the expression contains both `[` and `]`; `some b` is a definitive
answer (`return len(found_elements) > 0`), `none` is the `ValueError`
fall-through to the selector conversion (no `=` inside the bracket
expression) or a skipped branch (no brackets). -/
def attrFilterStep (root : XNode) (expr : String) : Option Bool :=
  if hasChar expr.data '[' && hasChar expr.data ']' then
    match splitFirst expr.data '[' with
    | some (tagName, attrPart) =>
      match splitFirst attrPart.dropLast '=' with
      | some (attrName, rawVal) =>
        some (existsTagAttr root (String.mk tagName) (String.mk attrName)
          (String.mk (stripQuotes rawVal)))
      | none => none
    | none => none
  else none

/-- First pass of the selector conversion: `expr.replace('//', ' ')`,
scanning left to right over non-overlapping occurrences. -/
def replaceDslash : List Char → List Char
  | '/' :: '/' :: rest => ' ' :: replaceDslash rest
  | c :: rest => c :: replaceDslash rest
  | [] => []

/-- Second pass: `.replace('/', ' > ')`. -/
def replaceSlash : List Char → List Char
  | '/' :: rest => ' ' :: '>' :: ' ' :: replaceSlash rest
  | c :: rest => c :: replaceSlash rest
  | [] => []

/-- `css_selector = xpath_like_expression.replace('//', ' ').replace('/', ' > ')`. -/
def cssConvert (expr : String) : String :=
  String.mk (replaceSlash (replaceDslash expr.data))

/-- `expr.split('/')[-1]`: the segment after the last `/` (the whole string
when there is no `/`). -/
def lastSlashSegment (l : List Char) : List Char :=
  (l.reverse.takeWhile (fun c => c != '/')).reverse

/-- Python `str.strip()`: remove leading and trailing whitespace. -/
def pyStrip (l : List Char) : List Char :=
  ((l.dropWhile Char.isWhitespace).reverse.dropWhile Char.isWhitespace).reverse

/-- The tag name used by the bare-tag fallback:
`xpath_like_expression.split('/')[-1].split('[')[0].strip()`. -/
def bareTagOf (expr : String) : String :=
  String.mk (pyStrip ((lastSlashSegment expr.data).takeWhile (fun c => c != '[')))

/-- `self.find(name) is not None` for the fallback's bare tag name.
BeautifulSoup treats a falsy (empty) name as a wildcard matching the first
element, which always exists here since the tree parsed. -/
def findBare (root : XNode) (name : String) : Bool :=
  if name.isEmpty then true else existsTag root name

/-- Steps 2 and 3 of `validate_xpath_like`: evaluate the converted CSS
selector; on a selector exception, fall back to the bare-tag existence
check. -/
def step23 (select : XNode → String → Option Nat) (root : XNode) (expr : String) : Bool :=
  match select root (cssConvert expr) with
  | some n => n != 0
  | none => findBare root (bareTagOf expr)

/-- `XMLParser.validate_xpath_like`: absent tree yields `false`; otherwise
the attribute-filter step answers definitively when it applies, and only a
malformed bracket expression (or no bracket expression) reaches the
selector and fallback steps. -/
def validate_xpath_like (select : XNode → String → Option Nat)
    (soup : Option XNode) (expr : String) : Bool :=
  match soup with
  | none => false
  | some root =>
    match attrFilterStep root expr with
    | some b => b
    | none => step23 select root expr

/-- `XMLParser.validate_content_regex`: false when no tree or when the
pretty-printed serialization is empty, else `re.search` (the external `re`
engine, an oracle) on the serialized text. -/
def validate_content_regex (reSearch : String → String → Bool)
    (prettify : XNode → String) (soup : Option XNode) (pat : String) : Bool :=
  match soup with
  | none => false
  | some n => if (prettify n).isEmpty then false else reSearch pat (prettify n)

/-! ## Request Dispatcher — `http_client.py::HTTPClient.send_request`

The external transport (`requests.request`) either returns a response or
raises one of the `requests` exception classes; `Transport` enumerates
exactly the outcomes the dispatcher's `try/except` chain distinguishes, in
its priority order (`Timeout` before `ConnectionError` before
`RequestException`).  Wall-clock response time is measured but carries no
logic, and is omitted from the embedding. -/

/-- What the external HTTP transport does for one request. -/
inductive Transport where
  | response (status : Int) (headers : List (String × String)) (body : String)
  | timeout
  | connectionError
  | requestError (msg : String)
deriving DecidableEq, Repr

/-- The normalized outcome dictionary built by `send_request`. -/
structure Outcome where
  status_code : Option Int
  headers : List (String × String)
  content : String
  success : Bool
  error : Option String
deriving DecidableEq, Repr

/-- `HTTPClient.send_request`: total on every transport outcome — never
raises; a received response is copied verbatim with `success = True`, and
each failure mode becomes data with `success = False`. -/
def send_request : Transport → Outcome
  | .response s h b => ⟨some s, h, b, true, none⟩
  | .timeout => ⟨none, [], "Request Timed Out", false, some "Timeout"⟩
  | .connectionError => ⟨none, [], "Connection Error", false, some "ConnectionError"⟩
  | .requestError m =>
    ⟨none, [], "An unexpected request error occurred: " ++ m, false, some m⟩

/-! ## Statistics Collector — `stats_collector.py::StatsCollector` -/

/-- The validation-results sub-dictionary of a result's details. -/
structure ValidationResults where
  xml_parseable : Option Bool
  xpath_validation : Option Bool
  regex_validation : Option Bool
deriving DecidableEq, Repr

/-- The details dictionary recorded for an executed case; `none` models the
empty details of SKIP/ERROR records. -/
structure RunDetails where
  status_code : Option Int
  response_success : Bool
  validation_results : ValidationResults
deriving DecidableEq, Repr

/-- One recorded test result (timestamp and timing omitted: wall-clock
values with no logic). -/
structure TestResult where
  test_name : String
  status : String
  details : Option RunDetails
  error_message : Option String
deriving DecidableEq, Repr

/-- The collector's running state. -/
structure Stats where
  total : Nat
  passed : Nat
  failed : Nat
  skipped : Nat
  results : List TestResult
deriving DecidableEq, Repr

/-- The collector's initial state. -/
def initStats : Stats := ⟨0, 0, 0, 0, []⟩

/-- `StatsCollector.record_test_result`: always increments `total`, tallies
the status (ERROR under `failed`, any other unknown label untallied), and
appends the result. -/
def record_test_result (st : Stats) (r : TestResult) : Stats :=
  let st1 := { st with total := st.total + 1 }
  let st2 :=
    if r.status == "PASS" then { st1 with passed := st1.passed + 1 }
    else if r.status == "FAIL" then { st1 with failed := st1.failed + 1 }
    else if r.status == "SKIP" then { st1 with skipped := st1.skipped + 1 }
    else if r.status == "ERROR" then { st1 with failed := st1.failed + 1 }
    else st1
  { st2 with results := st2.results ++ [r] }

/-! ## Test Executor and Run Orchestrator — `test_runner.py::TestRunner.run_tests` -/

/-- One test-case definition as read from the configuration.  Absent keys
are `none`; `body` is a `PyVal` because a missing body is Python `None` and
flows through substitution unchanged. -/
structure TestCase where
  name : Option String
  method : Option String
  path : Option String
  expected_status : Option Int
  body : PyVal
  headers : List (String × PyVal)
  params : Option Params
  validation_xpath : Option String
  validation_regex : Option String
deriving DecidableEq, Repr

/-- The request handed to the transport: method, substituted path and
headers, substituted body, and the merged parameter mapping passed as the
query-parameter mapping. -/
structure SentRequest where
  method : String
  path : String
  headers : List (String × PyVal)
  body : PyVal
  params : Params
deriving DecidableEq, Repr

/-- The external collaborators of one run: document parser, CSS selector
engine, regex engine, serializer, and the transport's behaviour per case
index. -/
structure Env where
  parse : String → Option XNode
  select : XNode → String → Option Nat
  reSearch : String → String → Bool
  prettify : XNode → String
  transport : Nat → Transport

/-- Python truthiness of the optional inclusion list: `None` and the empty
list are both falsy in `if test_names_to_run and ...`. -/
def truthyOptList : Option (List String) → Bool
  | none => false
  | some l => !l.isEmpty

/-- Python truthiness of an optional string (`if not path`, `if
validation_xpath`): `None` and `""` are falsy. -/
def truthyOptStr : Option String → Bool
  | none => false
  | some s => !s.isEmpty

/-- The selection gate `if test_names_to_run and test_name not in
test_names_to_run`. -/
def skipGate (names : Option (List String)) (testName : String) : Bool :=
  truthyOptList names && !((names.getD []).contains testName)

/-- `expected_status and response['status_code'] != expected_status`
(an expected status of `0` is falsy and disables the check). -/
def expectedMismatch (e? : Option Int) (sc : Option Int) : Bool :=
  match e? with
  | none => false
  | some e => (e != 0) && (sc != some e)

/-- `not expected_status or response['status_code'] == expected_status`. -/
def statusOk (e? : Option Int) (sc : Option Int) : Bool :=
  match e? with
  | none => true
  | some e => (e == 0) || (sc == some e)

/-- Python `str(...)` of the optional status values interpolated into the
mismatch message. -/
def optIntStr : Option Int → String
  | none => "None"
  | some n => toString n

/-- `(error_message + "; " if error_message else "") + addition`. -/
def joinMsg (cur : Option String) (add : String) : String :=
  (match cur with
   | some m => m ++ "; "
   | none => "") ++ add

/-- `current_params = test_case.get('params', {});
if override_params: current_params.update(override_params)`. -/
def mergeParams (caseParams ov : Params) : Params :=
  if ov.isEmpty then caseParams else dictUpdate caseParams ov

/-- Outcome of the validation phase: the running `xml_validation_pass`
flag, the accumulated error message, and the recorded validation
results. -/
structure VCheck where
  pass : Bool
  msg : Option String
  vr : ValidationResults
deriving DecidableEq, Repr

/-- Lines 119–148 of `test_runner.py`: parse the body, then run the
declared structural and regex checks, both of them, recording both
booleans and accumulating failure reasons with `"; "`. -/
def checkValidations (env : Env) (c : TestCase) (resp : Outcome) : VCheck :=
  let soup := if resp.content.isEmpty then none else env.parse resp.content
  if soup.isNone && !resp.content.isEmpty then
    ⟨false, some "Could not parse XML response.", ⟨some false, none, none⟩⟩
  else
    let r1 : VCheck :=
      if truthyOptStr c.validation_xpath then
        let q := c.validation_xpath.getD ""
        let x := validate_xpath_like env.select soup q
        ⟨x,
         if x then none else some (joinMsg none ("XPath validation failed for '" ++ q ++ "'")),
         ⟨some true, some x, none⟩⟩
      else ⟨true, none, ⟨some true, none, none⟩⟩
    if truthyOptStr c.validation_regex then
      let p := c.validation_regex.getD ""
      let y := validate_content_regex env.reSearch env.prettify soup p
      ⟨r1.pass && y,
       if y then r1.msg else some (joinMsg r1.msg ("Regex validation failed for '" ++ p ++ "'")),
       { r1.vr with regex_validation := some y }⟩
    else r1

/-- Final classification of one executed case: status string, error
message, and recorded validation results (lines 103–154). -/
def classify (env : Env) (c : TestCase) (resp : Outcome) : String × Option String × ValidationResults :=
  if resp.success = false then
    ("FAIL", some ("HTTP Request failed: " ++ resp.error.getD "Unknown Error"), ⟨none, none, none⟩)
  else if expectedMismatch c.expected_status resp.status_code then
    ("FAIL",
     some ("Expected status " ++ optIntStr c.expected_status ++ ", got "
        ++ optIntStr resp.status_code),
     ⟨none, none, none⟩)
  else
    let v := checkValidations env c resp
    let st :=
      if v.pass && resp.success && statusOk c.expected_status resp.status_code
      then "PASS" else "FAIL"
    (st, v.msg, v.vr)

/-- Lines 76–158: merge parameters (note: `current_params` aliases the
case's own `params` dict, so `update` mutates the stored definition —
reflected in the returned `TestCase`), substitute path/body/headers,
dispatch, classify, record.  Returns the recorded result, the request
handed to the transport (`none` when no request was issued), and the
test-case definition as it stands after the case ran. -/
def execCase (env : Env) (ov : Params) (c : TestCase) (t : Transport) :
    TestResult × Option SentRequest × TestCase :=
  let testName := c.name.getD "Unnamed Test"
  let currentParams := mergeParams (c.params.getD []) ov
  let mutated := { c with params := c.params.map (fun ps => mergeParams ps ov) }
  let req : SentRequest :=
    { method := (c.method.getD "GET").toUpper
      path := String.mk (scanSub currentParams (c.path.getD "").data)
      headers := c.headers.map (fun kv => (kv.1, substitute_variables currentParams kv.2))
      body := substitute_variables currentParams c.body
      params := currentParams }
  let resp := send_request t
  let cl := classify env c resp
  (⟨testName, cl.1, some ⟨resp.status_code, resp.success, cl.2.2⟩, cl.2.1⟩, some req, mutated)

/-- One iteration of the orchestrator loop (lines 52–163): the selection
gate, the missing-path guard, then full execution. -/
def runCase (env : Env) (names : Option (List String)) (ov : Params)
    (c : TestCase) (t : Transport) : TestResult × Option SentRequest × TestCase :=
  let testName := c.name.getD "Unnamed Test"
  if skipGate names testName then
    (⟨testName, "SKIP", none, some "Test not in run list."⟩, none, c)
  else if !truthyOptStr c.path then
    (⟨testName, "ERROR", none, some "Missing 'path' in configuration."⟩, none, c)
  else execCase env ov c t

/-- The orchestrator loop over the remaining cases, carrying the collector
state. -/
def runTestsFrom (env : Env) (names : Option (List String)) (ov : Params) :
    List TestCase → Nat → Stats → Stats
  | [], _, st => st
  | c :: rest, i, st =>
    runTestsFrom env names ov rest (i + 1)
      (record_test_result st (runCase env names ov c (env.transport i)).1)

/-- `TestRunner.run_tests`: drive every configured case in definition
order, recording exactly one result each. -/
def run_tests (env : Env) (names : Option (List String)) (ov : Params)
    (cases : List TestCase) : Stats :=
  runTestsFrom env names ov cases 0 initStats

/-! ## Concrete fixtures used by witnesses and counterexamples -/

/-- Number of results in a sequence carrying the given status label. -/
def countStatus (s : String) (l : List TestResult) : Nat :=
  (l.filter (fun r => r.status == s)).length

/-- Fold of the collector over a whole result sequence. -/
def finalStats (l : List TestResult) : Stats :=
  l.foldl record_test_result initStats

/-- A small parsed document: `<root><item id="i1"/><price currency="USD">…</price></root>`. -/
def tree0 : XNode :=
  .elem "root" [] [.elem "item" [("id", "i1")] [], .elem "price" [("currency", "USD")] []]

/-- A selector oracle that reports one match for every selector — any
silent fall-through of a well-formed filter would surface as `true`. -/
def sel0 : XNode → String → Option Nat := fun _ _ => some 1

/-- An environment whose parser yields `tree0`, whose selector always
matches, whose regex always matches, and whose transport returns 200. -/
def env0 : Env :=
  ⟨fun _ => some tree0, sel0, fun _ _ => true, fun _ => "pretty", fun _ => .response 200 [] "<x/>"⟩

/-- An environment whose selector matches nothing and whose regex never
matches. -/
def envF : Env :=
  ⟨fun _ => some tree0, fun _ _ => some 0, fun _ _ => false, fun _ => "pretty",
   fun _ => .response 200 [] "<x/>"⟩

/-- A plain case named `B` with only a path. -/
def caseB : TestCase := ⟨some "B", none, some "/x", none, .vnone, [], none, none, none⟩

/-- A case declaring both a structural query and a regex pattern. -/
def caseV : TestCase :=
  ⟨some "V", none, some "/x", some 200, .vnone, [], none, some "name", some "pat"⟩

/-- A case expecting status 201. -/
def caseM : TestCase := ⟨some "M", none, some "/x", some 201, .vnone, [], none, none, none⟩

/-- A case with a default parameter mapping `{product_id: "1"}` and a
placeholder path. -/
def caseP : TestCase :=
  ⟨some "P", none, some "/products/{product_id}", none, .vnone, [],
   some [("product_id", .vstr "1")], none, none⟩

/-- Run-level overrides `{product_id: "2"}`. -/
def ovP : Params := [("product_id", .vstr "2")]

/-- Four results, one per terminal status label. -/
def resultsFixture : List TestResult :=
  [⟨"a", "PASS", none, none⟩, ⟨"b", "ERROR", none, none⟩,
   ⟨"c", "SKIP", none, none⟩, ⟨"d", "FAIL", none, none⟩]

/-! ## Theorems -/

/-- The substitution scan agrees with the tokenize-and-render description
of the contract, for every template and parameter mapping. -/
theorem scanSub_eq_renderTokens (ps : Params) (l : List Char) :
    scanSub ps l = ((tokenizeSub l).map (renderTok ps)).flatten := by
  induction l using scanSub.induct ps with
  | case1 => rw [scanSub.eq_def, tokenizeSub.eq_def]; rfl
  | case2 rest run hrun ih =>
    rw [scanSub.eq_def, tokenizeSub.eq_def]
    simp only [reduceIte, hrun, if_true, List.map_cons, List.flatten_cons, renderTok]
    simp [ih]
  | case3 rest run hrun tail h ih =>
    rw [scanSub.eq_def, tokenizeSub.eq_def]
    simp only [reduceIte, if_neg hrun]
    split
    next tail' heq =>
      rw [h] at heq
      cases heq
      split
      next v hv => simp [renderTok, hv, ih]
      next hv => simp [renderTok, hv, ih]
    next hne => exact absurd h (by simpa using hne tail)
  | case4 rest run hrun hno ih =>
    rw [scanSub.eq_def, tokenizeSub.eq_def]
    simp only [reduceIte, if_neg hrun]
    simp [ih, renderTok]
  | case5 c rest hc ih =>
    rw [scanSub.eq_def, tokenizeSub.eq_def]
    simp [hc, ih, renderTok]

/-- C6: for every template value and parameter mapping, substitution
replaces each `\x7bidentifier\x7d` placeholder whose identifier is mapped by
the stringified mapped value, leaves placeholders with unmapped
identifiers verbatim including braces, and returns non-string inputs
unchanged — i.e. `_substitute_variables` coincides with the
tokenize-and-render contract on every input. -/
theorem C6_substitution_contract (ps : Params) (v : PyVal) :
    substitute_variables ps v = substituteSpec ps v := by
  cases v with
  | vstr s => simp [substitute_variables, substituteSpec, scanSub_eq_renderTokens]
  | vint n => rfl
  | vnone => rfl

/-- C4: the dispatcher is total over the transport's outcome taxonomy and
classifies: timeout → `Timeout`, connection failure → `ConnectionError`,
any other transport exception → its stringified reason, each with absent
status code, empty headers, a diagnostic body and `success = false`; any
received response is copied verbatim with `success = true`. -/
theorem C4_dispatcher_outcomes (t : Transport) :
    ((send_request t).success = false →
      (send_request t).status_code = none ∧ (send_request t).headers = []) ∧
    (t = Transport.timeout →
      send_request t = ⟨none, [], "Request Timed Out", false, some "Timeout"⟩) ∧
    (t = Transport.connectionError →
      send_request t = ⟨none, [], "Connection Error", false, some "ConnectionError"⟩) ∧
    (∀ m, t = Transport.requestError m →
      send_request t
        = ⟨none, [], "An unexpected request error occurred: " ++ m, false, some m⟩) ∧
    (∀ s h b, t = Transport.response s h b →
      send_request t = ⟨some s, h, b, true, none⟩) := by
  cases t <;> simp [send_request]

/-- Witness for C4 at the timeout outcome. -/
theorem C4_dispatcher_outcomes_witness :
    send_request Transport.timeout
      = ⟨none, [], "Request Timed Out", false, some "Timeout"⟩ :=
  (C4_dispatcher_outcomes Transport.timeout).2.1 rfl

/-- Recording appends exactly the new result, whatever its status. -/
theorem record_test_result_results (st : Stats) (r : TestResult) :
    (record_test_result st r).results = st.results ++ [r] := by
  unfold record_test_result
  repeat' split
  all_goals rfl

/-- `countStatus` over a cons cell. -/
theorem countStatus_cons (s : String) (r : TestResult) (l : List TestResult) :
    countStatus s (r :: l) = (if r.status == s then 1 else 0) + countStatus s l := by
  unfold countStatus
  rw [List.filter_cons]
  split <;> simp <;> omega

/-- The effect of one `record_test_result` on each counter. -/
theorem record_test_result_counters (st : Stats) (r : TestResult) :
    (record_test_result st r).total = st.total + 1 ∧
    (record_test_result st r).passed = st.passed + (if r.status == "PASS" then 1 else 0) ∧
    (record_test_result st r).skipped = st.skipped + (if r.status == "SKIP" then 1 else 0) ∧
    (record_test_result st r).failed
      = st.failed + ((if r.status == "FAIL" then 1 else 0)
          + (if r.status == "ERROR" then 1 else 0)) := by
  unfold record_test_result
  repeat' split
  all_goals simp_all

/-- Folding the collector over any result sequence adds the sequence to the
record and tallies each status label, ERROR under `failed`. -/
theorem record_fold_counters (l : List TestResult) :
    ∀ st : Stats,
      (List.foldl record_test_result st l).results = st.results ++ l ∧
      (List.foldl record_test_result st l).total = st.total + l.length ∧
      (List.foldl record_test_result st l).passed = st.passed + countStatus "PASS" l ∧
      (List.foldl record_test_result st l).skipped = st.skipped + countStatus "SKIP" l ∧
      (List.foldl record_test_result st l).failed
        = st.failed + (countStatus "FAIL" l + countStatus "ERROR" l) := by
  induction l with
  | nil => intro st; simp [countStatus]
  | cons r rest ih =>
    intro st
    obtain ⟨e1, e2, e3, e4, e5⟩ := ih (record_test_result st r)
    obtain ⟨f1, f2, f3, f4⟩ := record_test_result_counters st r
    refine ⟨?_, ?_, ?_, ?_, ?_⟩ <;> rw [List.foldl_cons]
    · rw [e1, record_test_result_results]; simp
    · rw [e2, f1]; simp [List.length_cons]; omega
    · rw [e3, f2, countStatus_cons]; omega
    · rw [e4, f3, countStatus_cons]; omega
    · rw [e5, f4, countStatus_cons, countStatus_cons]; omega

/-- C8: after recording any sequence of results whose statuses are among
PASS, FAIL, SKIP, ERROR, the counters agree with the recorded sequence
(ERROR tallied under `failed`) and satisfy
`total = passed + failed + skipped`. -/
theorem C8_counters_invariant (l : List TestResult)
    (h : ∀ r ∈ l, r.status = "PASS" ∨ r.status = "FAIL" ∨ r.status = "SKIP" ∨ r.status = "ERROR") :
    (finalStats l).results = l ∧
    (finalStats l).total = l.length ∧
    (finalStats l).passed = countStatus "PASS" l ∧
    (finalStats l).skipped = countStatus "SKIP" l ∧
    (finalStats l).failed = countStatus "FAIL" l + countStatus "ERROR" l ∧
    (finalStats l).total = (finalStats l).passed + (finalStats l).failed + (finalStats l).skipped := by
  obtain ⟨e1, e2, e3, e4, e5⟩ := record_fold_counters l initStats
  have hlen : l.length
      = countStatus "PASS" l + (countStatus "FAIL" l + countStatus "ERROR" l)
        + countStatus "SKIP" l := by
    clear e1 e2 e3 e4 e5
    induction l with
    | nil => simp [countStatus]
    | cons r rest ih =>
      have hr := h r (List.mem_cons_self r rest)
      have ihr := ih (fun x hx => h x (List.mem_cons_of_mem r hx))
      rcases hr with h1 | h1 | h1 | h1 <;>
        simp [countStatus_cons, h1, List.length_cons, ihr] <;> omega
  unfold finalStats
  rw [e1, e2, e3, e4, e5]
  simp [initStats]
  omega

/-- Witness for C8 on one result of each status. -/
theorem C8_counters_invariant_witness :
    (finalStats resultsFixture).results = resultsFixture ∧
    (finalStats resultsFixture).total = resultsFixture.length ∧
    (finalStats resultsFixture).passed = countStatus "PASS" resultsFixture ∧
    (finalStats resultsFixture).skipped = countStatus "SKIP" resultsFixture ∧
    (finalStats resultsFixture).failed
      = countStatus "FAIL" resultsFixture + countStatus "ERROR" resultsFixture ∧
    (finalStats resultsFixture).total
      = (finalStats resultsFixture).passed + (finalStats resultsFixture).failed
        + (finalStats resultsFixture).skipped :=
  C8_counters_invariant resultsFixture (by decide)

/-- Every branch of the executor labels its result with the case's
(defaulted) name. -/
theorem runCase_test_name (env : Env) (names : Option (List String)) (ov : Params)
    (c : TestCase) (t : Transport) :
    (runCase env names ov c t).1.test_name = c.name.getD "Unnamed Test" := by
  simp only [runCase, execCase]
  repeat' split
  all_goals rfl

/-- The orchestrator loop appends exactly one result per remaining case, in
definition order. -/
theorem runTestsFrom_names (env : Env) (names : Option (List String)) (ov : Params) :
    ∀ (cs : List TestCase) (i : Nat) (st : Stats),
      (runTestsFrom env names ov cs i st).results.map (·.test_name)
        = st.results.map (·.test_name) ++ cs.map (fun c => c.name.getD "Unnamed Test") := by
  intro cs
  induction cs with
  | nil => intro i st; simp [runTestsFrom]
  | cons c rest ih =>
    intro i st
    rw [runTestsFrom, ih, record_test_result_results]
    simp [runCase_test_name]

/-- C3: a run records exactly one `TestResult` per test-case definition
(SKIP and missing-path ERROR branches included), in the same relative
order as the definitions, and no per-case outcome ends the iteration
early — the result-name sequence equals the definition-name sequence. -/
theorem C3_one_result_per_case (env : Env) (names : Option (List String))
    (ov : Params) (cases : List TestCase) :
    (run_tests env names ov cases).results.map (·.test_name)
      = cases.map (fun c => c.name.getD "Unnamed Test") ∧
    (run_tests env names ov cases).results.length = cases.length := by
  have h := runTestsFrom_names env names ov cases 0 initStats
  constructor
  · simpa [run_tests, initStats] using h
  · have := congrArg List.length h
    simpa [run_tests, initStats] using this

/-- A character known to occur in a list is found by `hasChar`. -/
theorem hasChar_of_mem {l : List Char} {c : Char} (h : c ∈ l) : hasChar l c = true := by
  simp only [hasChar, List.any_eq_true]
  exact ⟨c, h, by simp⟩

/-- `split(sep, 1)` on a string whose prefix avoids the separator cuts
exactly at the first separator occurrence. -/
theorem splitFirst_append (t : Char) :
    ∀ (a b : List Char), hasChar a t = false → splitFirst (a ++ t :: b) t = some (a, b) := by
  intro a
  induction a with
  | nil => intro b _; simp [splitFirst]
  | cons x xs ih =>
    intro b h
    simp only [hasChar, List.any_cons, Bool.or_eq_false_iff] at h
    obtain ⟨hx, hxs⟩ := h
    have hx' : ¬x = t := by simpa using hx
    simp only [List.cons_append, splitFirst, if_neg hx']
    rw [List.append_eq, ih b hxs]

/-- Stripping quotes from a value wrapped in single quotes recovers the
value, provided the value itself does not begin or end with a quote
character. -/
theorem stripQuotes_wrap (v : List Char)
    (h1 : v.head?.all (fun c => !isQuote c) = true)
    (h2 : v.getLast?.all (fun c => !isQuote c) = true) :
    stripQuotes ('\'' :: (v ++ ['\''])) = v := by
  unfold stripQuotes
  rw [List.dropWhile_cons]
  simp only [show isQuote '\'' = true from rfl, if_true]
  cases v with
  | nil => rfl
  | cons a v' =>
    have ha : isQuote a = false := by simpa using h1
    rw [List.cons_append, List.dropWhile_cons, ha]
    simp only [Bool.false_eq_true, if_false]
    have hrw : (a :: (v' ++ ['\''])).reverse = '\'' :: (a :: v').reverse := by
      rw [show a :: (v' ++ ['\'']) = (a :: v') ++ ['\''] from rfl, List.reverse_append]
      rfl
    rw [hrw, List.dropWhile_cons]
    simp only [show isQuote '\'' = true from rfl, if_true]
    cases hrev : (a :: v').reverse with
    | nil => exact absurd hrev (by simp)
    | cons r rs =>
      have hr : isQuote r = false := by
        have hlast : (a :: v').getLast? = some r := by
          rw [List.getLast?_eq_head?_reverse, hrev]; rfl
        simpa [hlast] using h2
      rw [List.dropWhile_cons, hr]
      simp only [Bool.false_eq_true, if_false]
      rw [← hrev, List.reverse_reverse]

/-- C1: over any parsed tree, (1) a well-formed attribute filter
`tag[attr='value']` is answered by the attribute-filter step alone — true
iff some element named `tag` anywhere in the tree has `attr` exactly equal
to `value` — independently of the selector engine, so a failing
well-formed filter yields `false` rather than falling through; and (2) a
bracket expression with no `=` (the `ValueError` case) falls through to
the selector-and-fallback steps. -/
theorem C1_attribute_filter_definitive (select : XNode → String → Option Nat) (root : XNode) :
    (∀ tag attr val : String,
      hasChar tag.data '[' = false →
      hasChar attr.data '=' = false →
      val.data.head?.all (fun c => !isQuote c) = true →
      val.data.getLast?.all (fun c => !isQuote c) = true →
      validate_xpath_like select (some root) (tag ++ "[" ++ attr ++ "='" ++ val ++ "']")
        = existsTagAttr root tag attr val) ∧
    (∀ (expr : String) (tn ap : List Char),
      splitFirst expr.data '[' = some (tn, ap) →
      splitFirst ap.dropLast '=' = none →
      validate_xpath_like select (some root) expr = step23 select root expr) := by
  constructor
  · intro tag attr val htag hattr hv1 hv2
    have hd : (tag ++ "[" ++ attr ++ "='" ++ val ++ "']").data
        = tag.data ++ '[' :: (attr.data ++ '=' :: '\'' :: (val.data ++ ['\'', ']'])) := by
      simp [String.data_append]
    have hsp1 : splitFirst (tag ++ "[" ++ attr ++ "='" ++ val ++ "']").data '['
        = some (tag.data, attr.data ++ '=' :: '\'' :: (val.data ++ ['\'', ']'])) := by
      rw [hd]; exact splitFirst_append '[' tag.data _ htag
    have hdrop : (attr.data ++ '=' :: '\'' :: (val.data ++ ['\'', ']'])).dropLast
        = attr.data ++ '=' :: '\'' :: (val.data ++ ['\'']) := by
      have hshape : attr.data ++ '=' :: '\'' :: (val.data ++ ['\'', ']'])
          = (attr.data ++ '=' :: '\'' :: (val.data ++ ['\''])) ++ [']'] := by simp
      rw [hshape, List.dropLast_concat]
    have hsp2 : splitFirst (attr.data ++ '=' :: '\'' :: (val.data ++ ['\''])) '='
        = some (attr.data, '\'' :: (val.data ++ ['\''])) :=
      splitFirst_append '=' attr.data _ hattr
    have hg1 : hasChar (tag ++ "[" ++ attr ++ "='" ++ val ++ "']").data '[' = true := by
      rw [hd]; exact hasChar_of_mem (by simp)
    have hg2 : hasChar (tag ++ "[" ++ attr ++ "='" ++ val ++ "']").data ']' = true := by
      rw [hd]; exact hasChar_of_mem (by simp)
    unfold validate_xpath_like attrFilterStep
    rw [hg1, hg2]
    simp only [Bool.and_self, if_true, hsp1, hdrop, hsp2, stripQuotes_wrap val.data hv1 hv2]
  · intro expr tn ap hsp hm
    unfold validate_xpath_like attrFilterStep
    cases hg : (hasChar expr.data '[' && hasChar expr.data ']')
    · simp [hg]
    · simp [hg, hsp, hm]

/-- Witness for C1: in `tree0` the well-formed filter `item[id='i2']`
matches nothing and the validator answers with the exact attribute search
(false here, although the selector oracle would report a match), while the
malformed filter `item[id]` falls through to the selector steps. -/
theorem C1_attribute_filter_definitive_witness :
    (validate_xpath_like sel0 (some tree0) ("item" ++ "[" ++ "id" ++ "='" ++ "i2" ++ "']")
        = existsTagAttr tree0 "item" "id" "i2") ∧
    validate_xpath_like sel0 (some tree0) "item[id]" = step23 sel0 tree0 "item[id]" :=
  ⟨(C1_attribute_filter_definitive sel0 tree0).1 "item" "id" "i2"
      (by decide) (by decide) (by decide) (by decide),
   (C1_attribute_filter_definitive sel0 tree0).2 "item[id]" "item".data "id]".data
      (by decide) (by decide)⟩

/-- `joinMsg` starting from no accumulated message. -/
theorem joinMsg_none (a : String) : joinMsg none a = a := rfl

/-- `joinMsg` appending to an accumulated message. -/
theorem joinMsg_some (m a : String) : joinMsg (some m) a = m ++ "; " ++ a := rfl

/-- When the mismatch guard is false, the PASS-side status check holds. -/
theorem statusOk_of_no_mismatch (e? : Option Int) (sc : Option Int)
    (h : expectedMismatch e? sc = false) : statusOk e? sc = true := by
  cases e? <;> simp_all [expectedMismatch, statusOk] <;> tauto

/-- When both the selection gate and the missing-path guard pass, the
executor body runs. -/
theorem runCase_run (env : Env) (names : Option (List String)) (ov : Params)
    (c : TestCase) (t : Transport)
    (hskip : skipGate names (c.name.getD "Unnamed Test") = false)
    (hpath : truthyOptStr c.path = true) :
    runCase env names ov c t = execCase env ov c t := by
  unfold runCase
  simp [hskip, hpath]

/-- The executed case's recorded result, assembled from the dispatcher
outcome and the classification. -/
theorem execCase_result (env : Env) (ov : Params) (c : TestCase) (t : Transport) :
    (execCase env ov c t).1
      = ⟨c.name.getD "Unnamed Test", (classify env c (send_request t)).1,
         some ⟨(send_request t).status_code, (send_request t).success,
           (classify env c (send_request t)).2.2⟩,
         (classify env c (send_request t)).2.1⟩ := rfl

/-- Classification of a case that reaches the validation phase with both a
structural query and a regex pattern declared: both checks run, both

booleans are recorded, failures accumulate with `"; "`, and the status is
PASS exactly when both checks pass. -/
theorem classify_both_checks (env : Env) (c : TestCase) (resp : Outcome)
    (tree : XNode) (q r : String)
    (hsucc : resp.success = true)
    (hexp : expectedMismatch c.expected_status resp.status_code = false)
    (hq : c.validation_xpath = some q) (hq' : q ≠ "")
    (hr : c.validation_regex = some r) (hr' : r ≠ "")
    (hsoup : (if resp.content.isEmpty then none else env.parse resp.content) = some tree) :
    classify env c resp
      = (if validate_xpath_like env.select (some tree) q
            && validate_content_regex env.reSearch env.prettify (some tree) r
         then "PASS" else "FAIL",
         (if validate_xpath_like env.select (some tree) q then
            (if validate_content_regex env.reSearch env.prettify (some tree) r then none
             else some ("Regex validation failed for '" ++ r ++ "'"))
          else
            (if validate_content_regex env.reSearch env.prettify (some tree) r then
               some ("XPath validation failed for '" ++ q ++ "'")
             else some ("XPath validation failed for '" ++ q ++ "'" ++ "; "
               ++ ("Regex validation failed for '" ++ r ++ "'")))),
         ⟨some true, some (validate_xpath_like env.select (some tree) q),
          some (validate_content_regex env.reSearch env.prettify (some tree) r)⟩) := by
  have hqe : q.isEmpty = false := by
    cases hqe : q.isEmpty
    · rfl
    · exact absurd (by simpa [String.isEmpty_iff] using hqe) hq'
  have hre : r.isEmpty = false := by
    cases hre : r.isEmpty
    · rfl
    · exact absurd (by simpa [String.isEmpty_iff] using hre) hr'
  have hqt : truthyOptStr c.validation_xpath = true := by
    rw [hq]; simp [truthyOptStr, hqe]
  have hrt : truthyOptStr c.validation_regex = true := by
    rw [hr]; simp [truthyOptStr, hre]
  have hok := statusOk_of_no_mismatch _ _ hexp
  unfold classify checkValidations
  rw [hsucc]
  simp only [Bool.true_eq_false, if_false, hexp, Bool.false_eq_true, hsoup, hqt, hrt,
    Option.isNone_some, Bool.false_and, if_true, hok, Bool.and_true]
  rw [hq, hr]
  simp only [Option.getD_some]
  rcases Bool.eq_false_or_eq_true (validate_xpath_like env.select (some tree) q) with hXv | hXv <;>
    rcases Bool.eq_false_or_eq_true
      (validate_content_regex env.reSearch env.prettify (some tree) r) with hYv | hYv <;>
      simp [hXv, hYv, joinMsg_none, joinMsg_some]

/-- Classification of a successful response whose status code differs from
a declared (non-zero) expected status: FAIL with the expected-vs-actual
message and no validation booleans. -/
theorem classify_mismatch (env : Env) (c : TestCase) (resp : Outcome) (e a : Int)
    (hsucc : resp.success = true)
    (he : c.expected_status = some e) (he0 : e ≠ 0)
    (hsc : resp.status_code = some a) (hne : a ≠ e) :
    classify env c resp
      = ("FAIL",
         some ("Expected status " ++ toString e ++ ", got " ++ toString a),
         ⟨none, none, none⟩) := by
  have hmm : expectedMismatch (some e) (some a) = true := by
    simp [expectedMismatch, he0, hne]
  unfold classify
  rw [hsucc]
  simp only [Bool.true_eq_false, if_false, he, hsc, hmm, if_true, optIntStr]

/-- C2: a case that reaches the validation phase (request succeeded,
status check passed, body parsed) with both a structural query and a regex
pattern declared has both checks evaluated and both booleans recorded even
when the structural check failed, the final status is PASS iff every
declared check is true, and otherwise FAIL with the failed reasons
concatenated by `"; "`. -/
theorem C2_no_short_circuit (env : Env) (names : Option (List String)) (ov : Params)
    (c : TestCase) (s : Int) (hs : List (String × String)) (b : String)
    (tree : XNode) (q r : String)
    (hskip : skipGate names (c.name.getD "Unnamed Test") = false)
    (hpath : truthyOptStr c.path = true)
    (hq : c.validation_xpath = some q) (hq' : q ≠ "")
    (hr : c.validation_regex = some r) (hr' : r ≠ "")
    (hexp : expectedMismatch c.expected_status (some s) = false)
    (hsoup : (if b.isEmpty then none else env.parse b) = some tree) :
    (runCase env names ov c (.response s hs b)).1
      = ⟨c.name.getD "Unnamed Test",
         if validate_xpath_like env.select (some tree) q
            && validate_content_regex env.reSearch env.prettify (some tree) r
         then "PASS" else "FAIL",
         some ⟨some s, true,
           ⟨some true, some (validate_xpath_like env.select (some tree) q),
            some (validate_content_regex env.reSearch env.prettify (some tree) r)⟩⟩,
         (if validate_xpath_like env.select (some tree) q then
            (if validate_content_regex env.reSearch env.prettify (some tree) r then none
             else some ("Regex validation failed for '" ++ r ++ "'"))
          else
            (if validate_content_regex env.reSearch env.prettify (some tree) r then
               some ("XPath validation failed for '" ++ q ++ "'")
             else some ("XPath validation failed for '" ++ q ++ "'" ++ "; "
               ++ ("Regex validation failed for '" ++ r ++ "'"))))⟩
    ∧ ((runCase env names ov c (.response s hs b)).1.status = "PASS"
        ↔ (validate_xpath_like env.select (some tree) q = true
            ∧ validate_content_regex env.reSearch env.prettify (some tree) r = true)) := by
  have hcl := classify_both_checks env c (send_request (.response s hs b)) tree q r
    rfl hexp hq hq' hr hr' hsoup
  constructor
  · rw [runCase_run env names ov c _ hskip hpath, execCase_result, hcl]
    rfl
  · rw [runCase_run env names ov c _ hskip hpath, execCase_result, hcl]
    rcases Bool.eq_false_or_eq_true (validate_xpath_like env.select (some tree) q) with hXv | hXv <;>
      rcases Bool.eq_false_or_eq_true
        (validate_content_regex env.reSearch env.prettify (some tree) r) with hYv | hYv <;>
        simp [hXv, hYv]

/-- Witness for C2: both checks fail in `envF`; both booleans are recorded
false and the message concatenates both reasons. -/
theorem C2_no_short_circuit_witness :
    (runCase envF none [] caseV (.response 200 [] "<x/>")).1
      = ⟨"V",
         if validate_xpath_like envF.select (some tree0) "name"
            && validate_content_regex envF.reSearch envF.prettify (some tree0) "pat"
         then "PASS" else "FAIL",
         some ⟨some 200, true,
           ⟨some true, some (validate_xpath_like envF.select (some tree0) "name"),
            some (validate_content_regex envF.reSearch envF.prettify (some tree0) "pat")⟩⟩,
         (if validate_xpath_like envF.select (some tree0) "name" then
            (if validate_content_regex envF.reSearch envF.prettify (some tree0) "pat" then none
             else some ("Regex validation failed for '" ++ "pat" ++ "'"))
          else
            (if validate_content_regex envF.reSearch envF.prettify (some tree0) "pat" then
               some ("XPath validation failed for '" ++ "name" ++ "'")
             else some ("XPath validation failed for '" ++ "name" ++ "'" ++ "; "
               ++ ("Regex validation failed for '" ++ "pat" ++ "'"))))⟩ :=
  (C2_no_short_circuit envF none [] caseV 200 [] "<x/>" tree0 "name" "pat"
    rfl (by decide) rfl (by decide) rfl (by decide) (by decide) rfl).1

/-- C7: a successful response whose status code differs from the declared
expected status is classified FAIL with the message stating the expected
and the actual status, and no parsing or validation is attempted — no
validation booleans are recorded. -/
theorem C7_expected_status_mismatch (env : Env) (names : Option (List String))
    (ov : Params) (c : TestCase) (e a : Int) (hs : List (String × String)) (b : String)
    (hskip : skipGate names (c.name.getD "Unnamed Test") = false)
    (hpath : truthyOptStr c.path = true)
    (he : c.expected_status = some e) (he0 : e ≠ 0) (hne : a ≠ e) :
    (runCase env names ov c (.response a hs b)).1
      = ⟨c.name.getD "Unnamed Test", "FAIL",
         some ⟨some a, true, ⟨none, none, none⟩⟩,
         some ("Expected status " ++ toString e ++ ", got " ++ toString a)⟩ := by
  have hcl := classify_mismatch env c (send_request (.response a hs b)) e a
    rfl he he0 rfl hne
  rw [runCase_run env names ov c _ hskip hpath, execCase_result, hcl]
  rfl

/-- Witness for C7: expected 201, transport answers 400, message
"Expected status 201, got 400", no validation booleans. -/
theorem C7_expected_status_mismatch_witness :
    (runCase env0 none [] caseM (.response 400 [] "<x/>")).1
      = ⟨"M", "FAIL", some ⟨some 400, true, ⟨none, none, none⟩⟩,
         some "Expected status 201, got 400"⟩ :=
  C7_expected_status_mismatch env0 none [] caseM 201 400 [] "<x/>"
    rfl (by decide) rfl (by decide) (by decide)

/-- C9 (amended): when the supplied inclusion list is non-empty, a case
whose name is absent from it is recorded SKIP with the fixed message and
no request is issued, and a case whose name is in the list is processed
exactly as in a run with no inclusion list.  (The unamended claim fails on
the empty inclusion list, which Python's truthiness treats as no list.) -/
theorem C9_inclusion_list_gate (env : Env) (ov : Params) (c : TestCase)
    (t : Transport) (xs : List String) (hne : xs ≠ []) :
    ((c.name.getD "Unnamed Test") ∉ xs →
      runCase env (some xs) ov c t
        = (⟨c.name.getD "Unnamed Test", "SKIP", none, some "Test not in run list."⟩, none, c)) ∧
    ((c.name.getD "Unnamed Test") ∈ xs →
      runCase env (some xs) ov c t = runCase env none ov c t) := by
  have hxe : xs.isEmpty = false := by simpa using hne
  constructor
  · intro hnotin
    have hgate : skipGate (some xs) (c.name.getD "Unnamed Test") = true := by
      simp [skipGate, truthyOptList, hxe, hnotin]
    unfold runCase
    simp [hgate]
  · intro hin
    have hgate : skipGate (some xs) (c.name.getD "Unnamed Test") = false := by
      simp [skipGate, truthyOptList, hxe, hin]
    have hgate0 : skipGate none (c.name.getD "Unnamed Test") = false := rfl
    simp only [runCase, hgate, hgate0]

/-- Witness for the amended C9: the inclusion list `["A"]` skips the case
named `B` with the fixed message and no request. -/
theorem C9_inclusion_list_gate_witness :
    runCase env0 (some ["A"]) [] caseB (Transport.response 200 [] "<x/>")
      = (⟨"B", "SKIP", none, some "Test not in run list."⟩, none, caseB) :=
  (C9_inclusion_list_gate env0 [] caseB (Transport.response 200 [] "<x/>") ["A"]
    (by decide)).1 (by decide)

/-- Counterexample to C9 as stated: an explicitly supplied empty inclusion
list, from which every name is absent, does not skip anything — the case
named `B` is executed (a request is issued) and finishes PASS, not SKIP. -/
theorem C9_empty_inclusion_list_counterexample :
    "B" ∉ ([] : List String) ∧
    (run_tests env0 (some []) [] [caseB]).results.map (·.status) = ["PASS"] ∧
    (runCase env0 (some []) [] caseB (env0.transport 0)).2.1.isSome = true := by
  refine ⟨by simp, by decide, by decide⟩

/-- `current_params` with an empty override dict is the case's own dict;
with a non-empty one it is the dict after `update`. -/
theorem mergeParams_eq_dictUpdate (base ov : Params) :
    mergeParams base ov = dictUpdate base ov := by
  unfold mergeParams
  cases hov : ov.isEmpty
  · rfl
  · have : ov = [] := by
      cases ov
      · rfl
      · simp [List.isEmpty] at hov
    subst this
    simp [dictUpdate, alookup]

/-- C10: every executed (non-skipped, non-errored) case dispatches its
request with the merged parameter mapping — the case's defaults overlaid
by the run-level overrides — passed as the query-parameter mapping, the
same mapping used to resolve the path, body, and header placeholders. -/
theorem C10_merged_params_sent (env : Env) (names : Option (List String))
    (ov : Params) (c : TestCase) (t : Transport)
    (hskip : skipGate names (c.name.getD "Unnamed Test") = false)
    (hpath : truthyOptStr c.path = true) :
    (runCase env names ov c t).2.1
      = some ⟨(c.method.getD "GET").toUpper,
              String.mk (scanSub (dictUpdate (c.params.getD []) ov) (c.path.getD "").data),
              c.headers.map (fun kv =>
                (kv.1, substitute_variables (dictUpdate (c.params.getD []) ov) kv.2)),
              substitute_variables (dictUpdate (c.params.getD []) ov) c.body,
              dictUpdate (c.params.getD []) ov⟩ := by
  rw [runCase_run env names ov c t hskip hpath]
  unfold execCase
  simp only [mergeParams_eq_dictUpdate]

/-- Witness for C10: defaults `{product_id: "1"}` overridden by
`{product_id: "2"}` are sent as the query parameters (the merged mapping
evaluates to `{product_id: "2"}`), and the same merged mapping resolves
the path placeholder. -/
theorem C10_merged_params_sent_witness :
    (runCase env0 none ovP caseP (Transport.response 200 [] "")).2.1
      = some ⟨(caseP.method.getD "GET").toUpper,
              String.mk (scanSub (dictUpdate (caseP.params.getD []) ovP) (caseP.path.getD "").data),
              caseP.headers.map (fun kv =>
                (kv.1, substitute_variables (dictUpdate (caseP.params.getD []) ovP) kv.2)),
              substitute_variables (dictUpdate (caseP.params.getD []) ovP) caseP.body,
              dictUpdate (caseP.params.getD []) ovP⟩ ∧
    dictUpdate (caseP.params.getD []) ovP = [("product_id", PyVal.vstr "2")] :=
  ⟨C10_merged_params_sent env0 none ovP caseP (Transport.response 200 [] "")
    rfl (by decide), by decide⟩

/-- C5 counter-evidence: merging run-level overrides mutates the case's
stored default parameter mapping in place (`current_params` aliases the
stored dict and `update` writes through it), so after one execution the
definition no longer holds its original defaults. -/
theorem C5_stored_params_mutated :
    caseP.params = some [("product_id", PyVal.vstr "1")] ∧
    (runCase env0 none ovP caseP (Transport.response 200 [] "")).2.2.params
      = some [("product_id", PyVal.vstr "2")] := by
  refine ⟨rfl, by decide⟩

end XmlTrace
